import Mathlib

/-!
# who-mec: the wheel viewer and the page layout

A shallow embedding of `src/components/WheelViewer.jsx` and `src/app/layout.js`.

* JavaScript numbers (angles, pointer coordinates, wheel deltas) are binary64 values,
  embedded as the rationals they denote. Every `+`, `-` and `/` of the source is the exact
  operation followed by `fl64`, rounding to the nearest binary64 value with ties to the
  even significand, subnormal range included. `NaN` and the infinities are not values of
  the model: no statement below reaches a magnitude of `2 ^ 1024`.
* `Math.atan2(dy, dx) * (180 / Math.PI)` is a library call with no rational value in
  general, so every handler that reaches it takes the function `atan2Deg` as an argument.
* `wheelRef.current` is `Option DOMRect`: `none` while the element is not mounted,
  otherwise the rectangle `getBoundingClientRect()` returns.
* The React state cells and the `lastAngleRef` ref are the fields of `ViewState`; a
  handler is a function from the state before the event to the state after it.
* A range input is its `min` and `max` attributes together with its `onChange` handler:
  the element keeps its value within the two bounds and the handler reads that value.
-/

namespace WheelViewer

/-! ## Binary64 arithmetic -/

/-- The integer nearest to `x`, the even one of the two when `x` lies half way. -/
def roundHalfEven (x : ℚ) : ℤ :=
  let f := ⌊x⌋
  let r := x - f
  if r < 1 / 2 then f
  else if 1 / 2 < r then f + 1
  else if f % 2 = 0 then f else f + 1

/-- The exponent of the unit in the last place around `q`: 52 binary places below the
leading bit of `q`, and -1074 throughout the subnormal range. -/
def ulpExp (q : ℚ) : ℤ := max (Int.log 2 |q| - 52) (-1074)

/-- The binary64 value nearest to `q`, ties to even. -/
def fl64 (q : ℚ) : ℚ := roundHalfEven (q / 2 ^ ulpExp q) * 2 ^ ulpExp q

/-- The `+` of two numbers. -/
def fadd (x y : ℚ) : ℚ := fl64 (x + y)

/-- The `-` of two numbers. -/
def fsub (x y : ℚ) : ℚ := fl64 (x - y)

/-- The `/` of two numbers, for a divisor other than 0. -/
def fdiv (x y : ℚ) : ℚ := fl64 (x / y)

/-! ## Data model -/

/-- The part of `getBoundingClientRect()` that `calculateAngle` reads. -/
structure DOMRect where
  left : ℚ
  top : ℚ
  width : ℚ
  height : ℚ
  deriving DecidableEq, Repr

/-- The state of the component: the four `useState` cells and `lastAngleRef.current`. -/
structure ViewState where
  rotation : ℚ
  bottomRotation : ℚ
  isFlipped : Bool
  isDragging : Bool
  lastAngle : ℚ
  deriving DecidableEq, Repr

/-- The state at mount: `useState(0)`, `useState(0)`, `useState(false)`,
`useState(false)`, `useRef(0)`. -/
def initial : ViewState :=
  { rotation := 0, bottomRotation := 0, isFlipped := false, isDragging := false,
    lastAngle := 0 }

/-! ## Pointer bearing and the drag handlers -/

/-- Function `calculateAngle(clientX, clientY)`: 0 when the ref is empty, otherwise the
bearing of the pointer seen from the centre of the rectangle. The argument `atan2Deg`
stands for `Math.atan2(deltaY, deltaX) * (180 / Math.PI)`. -/
def calculateAngle (atan2Deg : ℚ → ℚ → ℚ) (wheelRef : Option DOMRect)
    (clientX clientY : ℚ) : ℚ :=
  match wheelRef with
  | none => 0
  | some rect =>
    let centerX := fadd rect.left (fdiv rect.width 2)
    let centerY := fadd rect.top (fdiv rect.height 2)
    let deltaX := fsub clientX centerX
    let deltaY := fsub clientY centerY
    atan2Deg deltaY deltaX

/-- Handler `handleDragStart(clientX, clientY)`: sets `isDragging` and records the bearing
of the pointer in `lastAngleRef.current`. -/
def handleDragStart (atan2Deg : ℚ → ℚ → ℚ) (wheelRef : Option DOMRect)
    (clientX clientY : ℚ) (s : ViewState) : ViewState :=
  { s with isDragging := true, lastAngle := calculateAngle atan2Deg wheelRef clientX clientY }

/-- Handler `handleDragMove(clientX, clientY)`: returns at once unless `isDragging`;
otherwise adds `currentAngle - lastAngleRef.current` to `bottomRotation` and records
`currentAngle`. -/
def handleDragMove (atan2Deg : ℚ → ℚ → ℚ) (wheelRef : Option DOMRect)
    (clientX clientY : ℚ) (s : ViewState) : ViewState :=
  if !s.isDragging then s
  else
    let currentAngle := calculateAngle atan2Deg wheelRef clientX clientY
    let angleDiff := fsub currentAngle s.lastAngle
    { s with bottomRotation := fadd s.bottomRotation angleDiff, lastAngle := currentAngle }

/-- Handler `handleDragEnd()`: clears `isDragging`. -/
def handleDragEnd (s : ViewState) : ViewState :=
  { s with isDragging := false }

/-! ## Keyboard, wheel, slider and buttons -/

/-- The `keydown` listener, as a function of `e.key`. -/
def handleKeyDown (key : String) (s : ViewState) : ViewState :=
  if key = "ArrowLeft" then { s with bottomRotation := fsub s.bottomRotation 5 }
  else if key = "ArrowRight" then { s with bottomRotation := fadd s.bottomRotation 5 }
  else if key = "f" ∨ key = "F" then { s with isFlipped := !s.isFlipped }
  else s

/-- Handler `handleWheel(e)`, as a function of `e.deltaY`. The component defines it but
binds it to no element: the JSX has no `onWheel` property. -/
def handleWheel (deltaY : ℚ) (s : ViewState) : ViewState :=
  let delta := deltaY
  let rotationAmount : ℚ := if delta > 0 then 5 else -5
  { s with bottomRotation := fadd s.bottomRotation rotationAmount }

/-- Listener `preventScroll(e)`, the non-passive `wheel` listener, as a function of
`e.deltaY`. -/
def preventScroll (deltaY : ℚ) (s : ViewState) : ViewState :=
  let delta := deltaY
  let rotationAmount : ℚ := if delta > 0 then 5 else -5
  { s with bottomRotation := fadd s.bottomRotation rotationAmount }

/-- The `wheel` listeners registered on the wheel element by the mount effect:
`preventScroll` when `wheelRef.current` is set, none otherwise. -/
def wheelListeners (wheelElement : Option DOMRect) : List (ℚ → ViewState → ViewState) :=
  match wheelElement with
  | some _ => [preventScroll]
  | none => []

/-- Dispatch of one `wheel` event with the given `deltaY`: every registered listener runs
once, in registration order. -/
def dispatchWheel (wheelElement : Option DOMRect) (deltaY : ℚ) (s : ViewState) : ViewState :=
  (wheelListeners wheelElement).foldl (fun acc listener => listener deltaY acc) s

/-- The `min` attribute of both range inputs. -/
def rangeMin : ℤ := -360

/-- The `max` attribute of both range inputs. -/
def rangeMax : ℤ := 360

/-- The value `<input type="range" min="-360" max="360">` holds after the whole number
`requested` is put into it: the element keeps its value within its `min` and `max`, a
request below `min` gives `min` and one above `max` gives `max`. The inputs declare no
`step`, so their values are whole numbers. -/
def rangeInputValue (requested : ℤ) : ℤ :=
  if requested < rangeMin then rangeMin
  else if rangeMax < requested then rangeMax
  else requested

/-- Handler `onChange` of both range inputs,
`(e) => setBottomRotation(Number(e.target.value))`, as a function of the number
`Number(e.target.value)`. -/
def sliderOnChange (value : ℚ) (s : ViewState) : ViewState :=
  { s with bottomRotation := value }

/-- Direct input of the whole number `requested` through a range input: the element takes
the value `rangeInputValue requested` and its change event runs `onChange` on it. -/
def sliderInput (requested : ℤ) (s : ViewState) : ViewState :=
  sliderOnChange (rangeInputValue requested : ℤ) s

/-- Handler `onClick` of the flip button: `setIsFlipped(!isFlipped)`. -/
def flipOnClick (s : ViewState) : ViewState :=
  { s with isFlipped := !s.isFlipped }

/-- Handler `onClick` of the reset button: `setRotation(0); setBottomRotation(0)`. -/
def resetOnClick (s : ViewState) : ViewState :=
  { s with rotation := 0, bottomRotation := 0 }

/-! ## Events and the step function -/

/-- The events the component listens to. Pointer events carry the client coordinates and
the content of `wheelRef.current` when the handler runs; a wheel event carries the
element it was registered on and `deltaY`. -/
inductive Event where
  | dragStart (wheelRef : Option DOMRect) (clientX clientY : ℚ)
  | dragMove (wheelRef : Option DOMRect) (clientX clientY : ℚ)
  | dragEnd
  | keyDown (key : String)
  | wheel (target : DOMRect) (deltaY : ℚ)
  | slider (value : ℚ)
  | flipButton
  | reset
  deriving DecidableEq

/-- One event handled to completion. -/
def step (atan2Deg : ℚ → ℚ → ℚ) (e : Event) (s : ViewState) : ViewState :=
  match e with
  | .dragStart wheelRef x y => handleDragStart atan2Deg wheelRef x y s
  | .dragMove wheelRef x y => handleDragMove atan2Deg wheelRef x y s
  | .dragEnd => handleDragEnd s
  | .keyDown key => handleKeyDown key s
  | .wheel target deltaY => dispatchWheel (some target) deltaY s
  | .slider value => sliderOnChange value s
  | .flipButton => flipOnClick s
  | .reset => resetOnClick s

/-- A sequence of events handled in order. -/
def run (atan2Deg : ℚ → ℚ → ℚ) (es : List Event) (s : ViewState) : ViewState :=
  es.foldl (fun acc e => step atan2Deg e acc) s

/-! ## Event sequences -/

/-- The state after the keys of `keys` went through the keydown listener in order. -/
def pressKeys (keys : List String) (s : ViewState) : ViewState :=
  keys.foldl (fun acc key => handleKeyDown key acc) s

/-- One pointer sample: the content of `wheelRef.current` when the handler runs and the
client coordinates of the pointer. -/
structure PointerSample where
  wheelRef : Option DOMRect
  clientX : ℚ
  clientY : ℚ
  deriving DecidableEq, Repr

/-- The bearing `calculateAngle` computes for a sample. -/
def bearingOf (atan2Deg : ℚ → ℚ → ℚ) (p : PointerSample) : ℚ :=
  calculateAngle atan2Deg p.wheelRef p.clientX p.clientY

/-- The drag-move event of a sample. -/
def moveEvent (p : PointerSample) : Event :=
  Event.dragMove p.wheelRef p.clientX p.clientY

/-- One drag gesture: a drag-start at `start`, then one drag-move per sample of `moves`,
and nothing in between. -/
def gesture (start : PointerSample) (moves : List PointerSample) : List Event :=
  Event.dragStart start.wheelRef start.clientX start.clientY :: moves.map moveEvent

/-- The bearing of the last sample of a gesture: that of the last move, or of the start
when there is no move. -/
def lastBearing (atan2Deg : ℚ → ℚ → ℚ) (start : PointerSample)
    (moves : List PointerSample) : ℚ :=
  (moves.map (bearingOf atan2Deg)).getLastD (bearingOf atan2Deg start)

/-- The two operations of one drag-move on state `t` with sample `p` round nothing: the
difference of the bearings and the sum with `bottomRotation` are binary64 values as they
stand. -/
def ExactMove (atan2Deg : ℚ → ℚ → ℚ) (p : PointerSample) (t : ViewState) : Prop :=
  fl64 (bearingOf atan2Deg p - t.lastAngle) = bearingOf atan2Deg p - t.lastAngle ∧
  fl64 (t.bottomRotation + (bearingOf atan2Deg p - t.lastAngle)) =
    t.bottomRotation + (bearingOf atan2Deg p - t.lastAngle)

/-- No drag-move of the list rounds, each taken at the state the moves before it leave. -/
def ExactMoves (atan2Deg : ℚ → ℚ → ℚ) : List PointerSample → ViewState → Prop
  | [], _ => True
  | p :: ps, t =>
    ExactMove atan2Deg p t ∧ ExactMoves atan2Deg ps (step atan2Deg (moveEvent p) t)

/-! ## Specification-side notions -/

/-- A bearing as `Math.atan2` reports it in degrees: in `(-180, 180]`. -/
def IsBearing (a : ℚ) : Prop := -180 < a ∧ a ≤ 180

instance (a : ℚ) : Decidable (IsBearing a) := by
  unfold IsBearing; infer_instance

/-- The signed short-way angular change from bearing `a` to bearing `b`, as the
specification words it: the representative of `b - a` modulo 360 in `(-180, 180]`. -/
def shortWay (a b : ℚ) : ℚ :=
  let r := b - a
  if r > 180 then r - 360 else if r ≤ -180 then r + 360 else r

/-- A value clamped to `[lo, hi]`, the specification's reading of the slider bounds. -/
def clampTo (lo hi v : ℚ) : ℚ := max lo (min hi v)

/-- The values of `Math.atan2(dy, dx) * (180 / Math.PI)` on the two axes and the two
diagonals. Off these eight directions the table answers 0; it is used at compass points
only. -/
def atan2DegCompass (dy dx : ℚ) : ℚ :=
  if dy = 0 then (if dx < 0 then 180 else 0)
  else if dx = 0 then (if dy > 0 then 90 else -90)
  else if dy = dx then (if dx > 0 then 45 else -135)
  else if dy = -dx then (if dx > 0 then -45 else 135)
  else 0

/-- A bearing reading that reports the same angle wherever the pointer is. -/
def constBearing (a : ℚ) : ℚ → ℚ → ℚ := fun _ _ => a

/-- The wheel element used in the examples: an 800 by 800 square at the origin, centre
`(400, 400)`. -/
def sampleRect : DOMRect := { left := 0, top := 0, width := 800, height := 800 }

/-- The binary64 value `5.710593137499642`, a bearing a drag can leave in
`bottomRotation`: `Math.atan2(1, 10) * (180 / Math.PI)`. -/
def bearingOneTen : ℚ := 6429556281526975 / 2 ^ 50

end WheelViewer

namespace Layout

/-- String conversion of a template-literal substitution whose value is a string or
`undefined` (`none`): `undefined` prints as the nine letters of its name. -/
def templateString : Option String → String
  | none => "undefined"
  | some s => s

/-- The two `Script` elements `RootLayout` renders: the `src` of the first and the inline
body of the second. -/
structure Scripts where
  src : String
  body : String
  deriving DecidableEq, Repr

/-- The text of the inline template before the substitution. -/
def bodyHead : String :=
  "\n        window.dataLayer = window.dataLayer || [];" ++
  "\n          function gtag()\x7bdataLayer.push(arguments);\x7d" ++
  "\n          gtag('js', new Date());" ++
  "\n          gtag('config', '"

/-- The text of the inline template after the substitution. -/
def bodyTail : String := "');\n        "

/-- The text of the `src` template before the substitution. -/
def srcHead : String := "https://www.googletagmanager.com/gtag/js?id="

/-- Component `RootLayout`, as a function of the process environment: `GA_TRACKING_ID` is read
once and substituted into both templates. -/
def RootLayout (env : String → Option String) : Scripts :=
  let GA_TRACKING_ID := env "GA_TRACKING_ID"
  { src := srcHead ++ templateString GA_TRACKING_ID,
    body := bodyHead ++ templateString GA_TRACKING_ID ++ bodyTail }

end Layout

namespace WheelViewer

/-! ## Binary64 rounding: the facts the proofs use -/

theorem log_eq_of_bounds (q : ℚ) (n : ℤ) (hlo : (2 : ℚ) ^ n ≤ |q|)
    (hhi : |q| < (2 : ℚ) ^ (n + 1)) : Int.log 2 |q| = n := by
  have hpos : 0 < |q| := lt_of_lt_of_le (by positivity) hlo
  have h1 : n ≤ Int.log 2 |q| :=
    (Int.zpow_le_iff_le_log (by norm_num) hpos).mp (by exact_mod_cast hlo)
  have h2 : Int.log 2 |q| < n + 1 :=
    (Int.lt_zpow_iff_log_lt (by norm_num) hpos).mp (by exact_mod_cast hhi)
  omega

theorem roundHalfEven_of_floor (x : ℚ) (f : ℤ) (h1 : (f : ℚ) ≤ x) (h2 : x < f + 1) :
    roundHalfEven x =
      if x - f < 1 / 2 then f else if 1 / 2 < x - f then f + 1
      else if f % 2 = 0 then f else f + 1 := by
  have hf : ⌊x⌋ = f := Int.floor_eq_iff.mpr ⟨h1, h2⟩
  simp only [roundHalfEven, hf]

theorem roundHalfEven_intCast (z : ℤ) : roundHalfEven (z : ℚ) = z := by
  rw [roundHalfEven_of_floor (z : ℚ) z le_rfl (by linarith)]
  simp

theorem fl64_of_multiple (q : ℚ) (z : ℤ) (h : q / 2 ^ ulpExp q = z) : fl64 q = q := by
  have hne : (2 : ℚ) ^ ulpExp q ≠ 0 := zpow_ne_zero _ (by norm_num)
  unfold fl64
  rw [h, roundHalfEven_intCast, ← h]
  field_simp

theorem fl64_zero : fl64 0 = 0 :=
  fl64_of_multiple 0 0 (by simp)

theorem fl64_intCast (n : ℤ) (h : |n| ≤ 2 ^ 53) : fl64 (n : ℚ) = n := by
  by_cases hn : n = 0
  · subst hn; simpa using fl64_zero
  have habs : (1 : ℤ) ≤ |n| := Int.one_le_abs hn
  have hq1 : (1 : ℚ) ≤ |(n : ℚ)| := by exact_mod_cast habs
  have hq2 : |(n : ℚ)| ≤ 2 ^ 53 := by exact_mod_cast h
  have hpos : 0 < |(n : ℚ)| := lt_of_lt_of_le one_pos hq1
  have hk0 : 0 ≤ Int.log 2 |(n : ℚ)| :=
    (Int.zpow_le_iff_le_log (by norm_num) hpos).mp (by simpa using hq1)
  have hk54 : Int.log 2 |(n : ℚ)| < 54 :=
    (Int.lt_zpow_iff_log_lt (by norm_num) hpos).mp (by
      have : (2 : ℚ) ^ (53 : ℕ) < 2 ^ (54 : ℕ) := by norm_num
      have h54 : ((2 : ℕ) : ℚ) ^ (54 : ℤ) = 2 ^ (54 : ℕ) := by norm_num
      rw [h54]; linarith)
  have hlow : (2 : ℚ) ^ Int.log 2 |(n : ℚ)| ≤ |(n : ℚ)| := by
    simpa using Int.zpow_log_le_self (b := 2) (by norm_num) hpos
  have hu : ulpExp (n : ℚ) = Int.log 2 |(n : ℚ)| - 52 := by
    unfold ulpExp; exact max_eq_left (by omega)
  by_cases hk : Int.log 2 |(n : ℚ)| ≤ 52
  · obtain ⟨j, hj⟩ : ∃ j : ℕ, (j : ℤ) = 52 - Int.log 2 |(n : ℚ)| :=
      ⟨(52 - Int.log 2 |(n : ℚ)|).toNat, Int.toNat_of_nonneg (by omega)⟩
    refine fl64_of_multiple (n : ℚ) (n * 2 ^ j) ?_
    have he : ulpExp (n : ℚ) = -(j : ℤ) := by rw [hu]; omega
    rw [he, zpow_neg, zpow_natCast, div_inv_eq_mul]
    push_cast
    ring
  · have hk53 : Int.log 2 |(n : ℚ)| = 53 := by omega
    rw [hk53] at hlow
    have hlow53 : (2 : ℚ) ^ (53 : ℕ) ≤ |(n : ℚ)| := by
      have h53 : (2 : ℚ) ^ (53 : ℤ) = 2 ^ (53 : ℕ) := by norm_num
      rw [← h53]; exact hlow
    have habs53 : |(n : ℚ)| = 2 ^ 53 := le_antisymm hq2 hlow53
    have he : ulpExp (n : ℚ) = 1 := by rw [hu, hk53]; norm_num
    rcases abs_eq (by positivity : (0 : ℚ) ≤ 2 ^ 53) |>.mp habs53 with h1 | h1
    · refine fl64_of_multiple (n : ℚ) (2 ^ 52) ?_
      rw [he, h1]; norm_num
    · refine fl64_of_multiple (n : ℚ) (-2 ^ 52) ?_
      rw [he, h1]; norm_num

theorem fl64_of_int (q : ℚ) (n : ℤ) (hq : q = n) (h : |n| ≤ 2 ^ 53) : fl64 q = q := by
  rw [hq]; exact fl64_intCast n h

theorem ulpExp_of_bounds (q : ℚ) (n : ℤ) (hlo : (2 : ℚ) ^ n ≤ |q|)
    (hhi : |q| < (2 : ℚ) ^ (n + 1)) (hn : -1022 ≤ n) : ulpExp q = n - 52 := by
  unfold ulpExp
  rw [log_eq_of_bounds q n hlo hhi]
  exact max_eq_left (by omega)

theorem fl64_of_bounds (q : ℚ) (n f : ℤ) (hlo : (2 : ℚ) ^ n ≤ |q|)
    (hhi : |q| < (2 : ℚ) ^ (n + 1)) (hn : -1022 ≤ n)
    (h1 : (f : ℚ) ≤ q / 2 ^ (n - 52)) (h2 : q / 2 ^ (n - 52) < f + 1) :
    fl64 q =
      ((if q / 2 ^ (n - 52) - f < 1 / 2 then f
        else if 1 / 2 < q / 2 ^ (n - 52) - f then f + 1
        else if f % 2 = 0 then f else f + 1 : ℤ) : ℚ) * 2 ^ (n - 52) := by
  unfold fl64
  rw [ulpExp_of_bounds q n hlo hhi hn, roundHalfEven_of_floor _ f h1 h2]

theorem fl64_bearingOneTen : fl64 bearingOneTen = bearingOneTen := by
  have hu : ulpExp bearingOneTen = 2 - 52 :=
    ulpExp_of_bounds bearingOneTen 2
      (by unfold bearingOneTen; rw [abs_of_pos (by norm_num)]; norm_num)
      (by unfold bearingOneTen; rw [abs_of_pos (by norm_num)]; norm_num) (by norm_num)
  refine fl64_of_multiple bearingOneTen 6429556281526975 ?_
  rw [hu]; unfold bearingOneTen; norm_num

theorem fl64_bearingOneTen_add_five :
    fl64 (bearingOneTen + 5) = 188422747120939 / 2 ^ 44 := by
  rw [fl64_of_bounds (bearingOneTen + 5) 3 6029527907870047
    (by unfold bearingOneTen; rw [abs_of_pos (by norm_num)]; norm_num)
    (by unfold bearingOneTen; rw [abs_of_pos (by norm_num)]; norm_num) (by norm_num)
    (by unfold bearingOneTen; norm_num) (by unfold bearingOneTen; norm_num)]
  unfold bearingOneTen
  norm_num

theorem fl64_bearingOneTen_sub_fortyFive :
    fl64 (bearingOneTen + -45) = -691186555099861 / 2 ^ 44 := by
  rw [fl64_of_bounds (bearingOneTen + -45) 5 (-5529492440798889)
    (by unfold bearingOneTen; rw [abs_of_neg (by norm_num)]; norm_num)
    (by unfold bearingOneTen; rw [abs_of_neg (by norm_num)]; norm_num) (by norm_num)
    (by unfold bearingOneTen; norm_num) (by unfold bearingOneTen; norm_num)]
  unfold bearingOneTen
  norm_num

/-! ## Unfolding lemmas shared by the proofs -/

theorem handleDragMove_idle (A : ℚ → ℚ → ℚ) (r : Option DOMRect) (x y : ℚ) (s : ViewState)
    (h : s.isDragging = false) : handleDragMove A r x y s = s := by
  simp [handleDragMove, h]

theorem handleDragMove_active (A : ℚ → ℚ → ℚ) (r : Option DOMRect) (x y : ℚ) (s : ViewState)
    (h : s.isDragging = true) :
    handleDragMove A r x y s =
      { s with
        bottomRotation := fl64 (s.bottomRotation + fl64 (calculateAngle A r x y - s.lastAngle)),
        lastAngle := calculateAngle A r x y } := by
  simp [handleDragMove, h, fadd, fsub]

theorem handleKeyDown_left (s : ViewState) :
    handleKeyDown "ArrowLeft" s = { s with bottomRotation := fl64 (s.bottomRotation - 5) } := by
  simp [handleKeyDown, fsub]

theorem handleKeyDown_right (s : ViewState) :
    handleKeyDown "ArrowRight" s = { s with bottomRotation := fl64 (s.bottomRotation + 5) } := by
  have h : ("ArrowRight" : String) ≠ "ArrowLeft" := by decide
  simp [handleKeyDown, h, fadd]

theorem handleKeyDown_flip (key : String) (hk : key = "F" ∨ key = "f") (s : ViewState) :
    handleKeyDown key s = { s with isFlipped := !s.isFlipped } := by
  have h1 : ("F" : String) ≠ "ArrowLeft" := by decide
  have h2 : ("F" : String) ≠ "ArrowRight" := by decide
  have h3 : ("f" : String) ≠ "ArrowLeft" := by decide
  have h4 : ("f" : String) ≠ "ArrowRight" := by decide
  rcases hk with rfl | rfl <;> simp [handleKeyDown, *]

theorem handleKeyDown_other (key : String) (s : ViewState)
    (hl : key ≠ "ArrowLeft") (hr : key ≠ "ArrowRight") (hf : key ≠ "f") (hF : key ≠ "F") :
    handleKeyDown key s = s := by
  simp [handleKeyDown, hl, hr, hf, hF]

theorem calculateAngle_sampleRect (A : ℚ → ℚ → ℚ) (x y : ℤ)
    (hx : |x - 400| ≤ 2 ^ 53) (hy : |y - 400| ≤ 2 ^ 53) :
    calculateAngle A (some sampleRect) x y = A ((y : ℚ) - 400) ((x : ℚ) - 400) := by
  have h400 : fl64 (800 / 2) = 400 := by
    rw [fl64_of_int (800 / 2) 400 (by norm_num) (by norm_num)]; norm_num
  have h0 : fl64 (0 + 400) = 400 := by
    rw [fl64_of_int (0 + 400) 400 (by norm_num) (by norm_num)]; norm_num
  simp only [calculateAngle, sampleRect, fadd, fsub, fdiv]
  rw [h400, h0, fl64_of_int ((x : ℚ) - 400) (x - 400) (by push_cast; ring) hx,
    fl64_of_int ((y : ℚ) - 400) (y - 400) (by push_cast; ring) hy]

/-! ## Drag state: idle before a gesture and after it -/

/-- C3: `isDragging` is false in the initial state and in the state right after every
drag-end event, and a drag-move event arriving while `isDragging` is false, whatever its
pointer coordinates, leaves all five fields of the view state as they were. -/
theorem C3_idle_drag_move_is_noop :
    initial.isDragging = false ∧
    (∀ (A : ℚ → ℚ → ℚ) (s : ViewState), (step A Event.dragEnd s).isDragging = false) ∧
    (∀ (A : ℚ → ℚ → ℚ) (r : Option DOMRect) (x y : ℚ) (s : ViewState),
      s.isDragging = false →
        step A (Event.dragMove r x y) s = s ∧
        (step A (Event.dragMove r x y) s).bottomRotation = s.bottomRotation ∧
        (step A (Event.dragMove r x y) s).rotation = s.rotation ∧
        (step A (Event.dragMove r x y) s).isFlipped = s.isFlipped ∧
        (step A (Event.dragMove r x y) s).isDragging = s.isDragging ∧
        (step A (Event.dragMove r x y) s).lastAngle = s.lastAngle) := by
  refine ⟨rfl, fun A s => rfl, ?_⟩
  intro A r x y s h
  have hs : step A (Event.dragMove r x y) s = s := handleDragMove_idle A r x y s h
  simp [hs]

/-- Instance of C3: after a drag-end, a move to the compass point east of the centre
changes nothing. -/
theorem C3_idle_drag_move_is_noop_witness :
    (handleDragEnd { initial with bottomRotation := 30, isDragging := true }).isDragging = false ∧
    step atan2DegCompass (Event.dragMove (some sampleRect) 500 400)
        (handleDragEnd { initial with bottomRotation := 30, isDragging := true }) =
      handleDragEnd { initial with bottomRotation := 30, isDragging := true } :=
  ⟨rfl, (C3_idle_drag_move_is_noop.2.2 atan2DegCompass (some sampleRect) 500 400
      (handleDragEnd { initial with bottomRotation := 30, isDragging := true }) rfl).1⟩

/-! ## Reset -/

/-- C4: the reset action yields `bottomRotation = 0` and `rotation = 0` from every state
and keeps `isFlipped`, `isDragging` and `lastAngle`. -/
theorem C4_reset_zeroes_both_angles (A : ℚ → ℚ → ℚ) (s : ViewState) :
    (step A Event.reset s).bottomRotation = 0 ∧
    (step A Event.reset s).rotation = 0 ∧
    (step A Event.reset s).isFlipped = s.isFlipped ∧
    (step A Event.reset s).isDragging = s.isDragging ∧
    (step A Event.reset s).lastAngle = s.lastAngle ∧
    step A Event.reset s = resetOnClick s :=
  ⟨rfl, rfl, rfl, rfl, rfl, rfl⟩

/-! ## The flip key -/

theorem pressKeys_flip (keys : List String) (hk : ∀ k ∈ keys, k = "F" ∨ k = "f")
    (s : ViewState) :
    pressKeys keys s =
      { s with isFlipped := if keys.length % 2 = 0 then s.isFlipped else !s.isFlipped } := by
  induction keys generalizing s with
  | nil => simp [pressKeys]
  | cons k ks ih =>
    have hk0 : k = "F" ∨ k = "f" := hk k (List.mem_cons_self k ks)
    have hks : ∀ k ∈ ks, k = "F" ∨ k = "f" := fun j hj => hk j (List.mem_cons_of_mem k hj)
    have hstep : pressKeys (k :: ks) s = pressKeys ks (handleKeyDown k s) := rfl
    rw [hstep, ih hks, handleKeyDown_flip k hk0]
    rcases Nat.mod_two_eq_zero_or_one ks.length with h | h
    · have h1 : (ks.length + 1) % 2 = 1 := by omega
      simp [h, h1]
    · have h1 : (ks.length + 1) % 2 = 0 := by omega
      simp [h, h1]

/-- C5: for a sequence of key presses each of which is `F` or `f`, an even number of them
gives back the state one started from and an odd number gives that state with `isFlipped`
negated; `bottomRotation`, `rotation`, `isDragging` and `lastAngle` are the same after every
number of presses, and the keys `F` and `f` have the same effect. -/
theorem C5_flip_key_parity (keys : List String) (hk : ∀ k ∈ keys, k = "F" ∨ k = "f")
    (n : ℕ) (s : ViewState) :
    (keys.length = 2 * n → pressKeys keys s = s) ∧
    (keys.length = 2 * n + 1 → pressKeys keys s = { s with isFlipped := !s.isFlipped }) ∧
    (pressKeys keys s).bottomRotation = s.bottomRotation ∧
    (pressKeys keys s).rotation = s.rotation ∧
    (pressKeys keys s).isDragging = s.isDragging ∧
    (pressKeys keys s).lastAngle = s.lastAngle ∧
    handleKeyDown "F" s = handleKeyDown "f" s ∧
    (handleKeyDown "F" s).isFlipped = !s.isFlipped := by
  have hp := pressKeys_flip keys hk s
  refine ⟨?_, ?_, ?_, ?_, ?_, ?_, ?_, ?_⟩
  · intro hlen
    have h0 : keys.length % 2 = 0 := by omega
    rw [hp]; simp [h0]
  · intro hlen
    have h1 : keys.length % 2 = 1 := by omega
    rw [hp]; simp [h1]
  · rw [hp]
  · rw [hp]
  · rw [hp]
  · rw [hp]
  · rw [handleKeyDown_flip "F" (Or.inl rfl), handleKeyDown_flip "f" (Or.inr rfl)]
  · rw [handleKeyDown_flip "F" (Or.inl rfl)]

/-- Instance of C5: four presses mixing `F` and `f` return the initial state. -/
theorem C5_flip_key_parity_witness :
    pressKeys ["F", "f", "f", "F"] initial = initial :=
  (C5_flip_key_parity ["F", "f", "f", "F"] (by decide) 2 initial).1 rfl

/-! ## Arrow keys -/

/-- C2, as the code has it: from `bottomRotation = 10`, one `ArrowRight` and then two
`ArrowLeft` give `bottomRotation = 5`; `ArrowRight` adds 5, `ArrowLeft` subtracts 5, and
neither touches another field. -/
theorem C2_arrow_sequence_gives_five (s : ViewState) (h : s.bottomRotation = 10) :
    (pressKeys ["ArrowRight", "ArrowLeft", "ArrowLeft"] s).bottomRotation = 5 ∧
    handleKeyDown "ArrowRight" s = { s with bottomRotation := s.bottomRotation + 5 } ∧
    handleKeyDown "ArrowLeft" s = { s with bottomRotation := s.bottomRotation - 5 } := by
  have hr : handleKeyDown "ArrowRight" s = { s with bottomRotation := s.bottomRotation + 5 } := by
    rw [handleKeyDown_right, h, fl64_of_int (10 + 5) 15 (by norm_num) (by norm_num)]
  have hl : handleKeyDown "ArrowLeft" s = { s with bottomRotation := s.bottomRotation - 5 } := by
    rw [handleKeyDown_left, h, fl64_of_int (10 - 5) 5 (by norm_num) (by norm_num)]
  refine ⟨?_, hr, hl⟩
  show (handleKeyDown "ArrowLeft" (handleKeyDown "ArrowLeft"
    (handleKeyDown "ArrowRight" s))).bottomRotation = 5
  rw [hr, handleKeyDown_left, handleKeyDown_left]
  show fl64 (fl64 (s.bottomRotation + 5 - 5) - 5) = 5
  rw [h, fl64_of_int (10 + 5 - 5) 10 (by norm_num) (by norm_num),
    fl64_of_int (10 + 5 - 5 - 5) 5 (by norm_num) (by norm_num)]
  norm_num

/-- Instance of C2 at the initial state with `bottomRotation` set to 10. -/
theorem C2_arrow_sequence_gives_five_witness :
    (pressKeys ["ArrowRight", "ArrowLeft", "ArrowLeft"]
      { initial with bottomRotation := 10 }).bottomRotation = 5 :=
  (C2_arrow_sequence_gives_five { initial with bottomRotation := 10 } rfl).1

/-- C2 fails as stated: from `bottomRotation = 10` the three key presses give 5, which is
not 1. -/
theorem C2_counterexample :
    (pressKeys ["ArrowRight", "ArrowLeft", "ArrowLeft"]
      { initial with bottomRotation := 10 }).bottomRotation = 5 ∧
    (pressKeys ["ArrowRight", "ArrowLeft", "ArrowLeft"]
      { initial with bottomRotation := 10 }).bottomRotation ≠ 1 := by
  have h5 : (pressKeys ["ArrowRight", "ArrowLeft", "ArrowLeft"]
      { initial with bottomRotation := 10 }).bottomRotation = 5 := by
    show (handleKeyDown "ArrowLeft" (handleKeyDown "ArrowLeft"
      (handleKeyDown "ArrowRight" { initial with bottomRotation := 10 }))).bottomRotation = 5
    rw [handleKeyDown_right, handleKeyDown_left, handleKeyDown_left]
    show fl64 (fl64 (fl64 ((10 : ℚ) + 5) - 5) - 5) = 5
    rw [fl64_of_int (10 + 5) 15 (by norm_num) (by norm_num),
      fl64_of_int (10 + 5 - 5) 10 (by norm_num) (by norm_num),
      fl64_of_int (10 + 5 - 5 - 5) 5 (by norm_num) (by norm_num)]
    norm_num
  refine ⟨h5, ?_⟩
  rw [h5]; norm_num

/-! ## Which events move `bottomRotation` -/

/-- C8, as the code has it: an event changes `bottomRotation` only if it is a drag-move
handled while `isDragging` is true, an arrow key, a wheel event, a slider event or the
reset action. Drag-start, drag-end, a drag-move while `isDragging` is false, the `F` and
`f` keys, every key other than the two arrows, and the flip button leave it unchanged. -/
theorem C8_bottomRotation_frame (A : ℚ → ℚ → ℚ) (s : ViewState) :
    (∀ e : Event, (step A e s).bottomRotation ≠ s.bottomRotation →
      ((∃ r x y, e = Event.dragMove r x y ∧ s.isDragging = true) ∨
        e = Event.keyDown "ArrowLeft" ∨ e = Event.keyDown "ArrowRight" ∨
        (∃ t d, e = Event.wheel t d) ∨ (∃ v, e = Event.slider v) ∨ e = Event.reset)) ∧
    (∀ r x y, (step A (Event.dragStart r x y) s).bottomRotation = s.bottomRotation) ∧
    (step A Event.dragEnd s).bottomRotation = s.bottomRotation ∧
    (∀ r x y, s.isDragging = false →
      (step A (Event.dragMove r x y) s).bottomRotation = s.bottomRotation) ∧
    (step A (Event.keyDown "F") s).bottomRotation = s.bottomRotation ∧
    (step A (Event.keyDown "f") s).bottomRotation = s.bottomRotation ∧
    (∀ key, key ≠ "ArrowLeft" → key ≠ "ArrowRight" →
      (step A (Event.keyDown key) s).bottomRotation = s.bottomRotation) ∧
    (step A Event.flipButton s).bottomRotation = s.bottomRotation := by
  have hkey : ∀ key : String, key ≠ "ArrowLeft" → key ≠ "ArrowRight" →
      (step A (Event.keyDown key) s).bottomRotation = s.bottomRotation := by
    intro key hl hr
    show (handleKeyDown key s).bottomRotation = s.bottomRotation
    by_cases hf : key = "F" ∨ key = "f"
    · rw [handleKeyDown_flip key hf]
    · push_neg at hf
      rw [handleKeyDown_other key s hl hr hf.2 hf.1]
  have hidle : ∀ r x y, s.isDragging = false →
      (step A (Event.dragMove r x y) s).bottomRotation = s.bottomRotation := by
    intro r x y h
    show (handleDragMove A r x y s).bottomRotation = s.bottomRotation
    rw [handleDragMove_idle A r x y s h]
  refine ⟨?_, fun _ _ _ => rfl, rfl, hidle, hkey "F" (by decide) (by decide),
    hkey "f" (by decide) (by decide), hkey, rfl⟩
  intro e he
  cases e with
  | dragStart r x y => exact absurd rfl he
  | dragMove r x y =>
    left
    refine ⟨r, x, y, rfl, ?_⟩
    by_contra hd
    exact he (hidle r x y (by simpa using hd))
  | dragEnd => exact absurd rfl he
  | keyDown key =>
    by_cases hl : key = "ArrowLeft"
    · right; left; rw [hl]
    · by_cases hr : key = "ArrowRight"
      · right; right; left; rw [hr]
      · exact absurd (hkey key hl hr) he
  | wheel t d => right; right; right; left; exact ⟨t, d, rfl⟩
  | slider v => right; right; right; right; left; exact ⟨v, rfl⟩
  | flipButton => exact absurd rfl he
  | reset => right; right; right; right; right; rfl

/-- Instance of C8: an `F` key press at `bottomRotation = 10` leaves 10, and the reset
that changes it is one of the listed events. -/
theorem C8_bottomRotation_frame_witness :
    (step atan2DegCompass (Event.keyDown "F")
      { initial with bottomRotation := 10 }).bottomRotation = 10 ∧
    ((∃ r x y, Event.reset = Event.dragMove r x y ∧
        ({ initial with bottomRotation := 10 } : ViewState).isDragging = true) ∨
      Event.reset = Event.keyDown "ArrowLeft" ∨ Event.reset = Event.keyDown "ArrowRight" ∨
      (∃ t d, Event.reset = Event.wheel t d) ∨ (∃ v, Event.reset = Event.slider v) ∨
      Event.reset = Event.reset) :=
  ⟨(C8_bottomRotation_frame atan2DegCompass { initial with bottomRotation := 10 }).2.2.2.2.1,
   (C8_bottomRotation_frame atan2DegCompass { initial with bottomRotation := 10 }).1
      Event.reset (by
        show (0 : ℚ) ≠ 10
        norm_num)⟩

/-- C8 fails as stated: the reset action is not a drag-move, key, wheel or slider event,
and from `bottomRotation = 10` it gives 0. -/
theorem C8_counterexample :
    (step atan2DegCompass Event.reset { initial with bottomRotation := 10 }).bottomRotation = 0 ∧
    (step atan2DegCompass Event.reset { initial with bottomRotation := 10 }).bottomRotation ≠
      ({ initial with bottomRotation := 10 } : ViewState).bottomRotation ∧
    (∀ r x y, Event.reset ≠ Event.dragMove r x y) ∧
    (∀ key, Event.reset ≠ Event.keyDown key) ∧
    (∀ t d, Event.reset ≠ Event.wheel t d) ∧
    (∀ v, Event.reset ≠ Event.slider v) := by
  refine ⟨rfl, ?_, ?_, ?_, ?_, ?_⟩
  · show (0 : ℚ) ≠ 10
    norm_num
  · intro r x y h; cases h
  · intro key h; cases h
  · intro t d h; cases h
  · intro v h; cases h

/-! ## The wheel event -/

theorem step_wheel (A : ℚ → ℚ → ℚ) (target : DOMRect) (deltaY : ℚ) (s : ViewState) :
    step A (Event.wheel target deltaY) s =
      { s with bottomRotation := fl64 (s.bottomRotation + (if deltaY > 0 then 5 else -5)) } := by
  simp [step, dispatchWheel, wheelListeners, preventScroll, fadd]

/-- C6, as the code has it: one wheel event over the control sets `bottomRotation` to the
binary64 value nearest to `bottomRotation + 5` when `deltaY > 0` and nearest to
`bottomRotation - 5` otherwise (also at `deltaY = 0`), whatever `isDragging` is, and
changes no other field. The change is 5 or -5 on the nose when that sum is a binary64
value, as it is for every whole `bottomRotation` up to `2 ^ 52` in size. The event runs
the one registered listener once: the result is that of a single `preventScroll`, equal
to a single `handleWheel`. -/
theorem C6_wheel_event_steps_by_five (A : ℚ → ℚ → ℚ) (target : DOMRect) (deltaY : ℚ)
    (s : ViewState) :
    step A (Event.wheel target deltaY) s =
      { s with bottomRotation := fl64 (s.bottomRotation + (if deltaY > 0 then 5 else -5)) } ∧
    (0 < deltaY → fl64 (s.bottomRotation + 5) = s.bottomRotation + 5 →
      (step A (Event.wheel target deltaY) s).bottomRotation = s.bottomRotation + 5) ∧
    (deltaY ≤ 0 → fl64 (s.bottomRotation - 5) = s.bottomRotation - 5 →
      (step A (Event.wheel target deltaY) s).bottomRotation = s.bottomRotation - 5) ∧
    (∀ n : ℤ, s.bottomRotation = n → |n| ≤ 2 ^ 52 →
      (0 < deltaY →
        (step A (Event.wheel target deltaY) s).bottomRotation = s.bottomRotation + 5) ∧
      (deltaY ≤ 0 →
        (step A (Event.wheel target deltaY) s).bottomRotation = s.bottomRotation - 5) ∧
      step A (Event.wheel target deltaY) s ≠ handleWheel deltaY (preventScroll deltaY s)) ∧
    (step A (Event.wheel target 0) s).bottomRotation = fl64 (s.bottomRotation - 5) ∧
    (step A (Event.wheel target deltaY) s).rotation = s.rotation ∧
    (step A (Event.wheel target deltaY) s).isFlipped = s.isFlipped ∧
    (step A (Event.wheel target deltaY) s).isDragging = s.isDragging ∧
    (step A (Event.wheel target deltaY) s).lastAngle = s.lastAngle ∧
    (wheelListeners (some target)).length = 1 ∧
    step A (Event.wheel target deltaY) s = preventScroll deltaY s ∧
    step A (Event.wheel target deltaY) s = handleWheel deltaY s := by
  have hs := step_wheel A target deltaY s
  have hup : 0 < deltaY → fl64 (s.bottomRotation + 5) = s.bottomRotation + 5 →
      (step A (Event.wheel target deltaY) s).bottomRotation = s.bottomRotation + 5 := by
    intro h he
    rw [hs]
    show fl64 (s.bottomRotation + (if deltaY > 0 then 5 else -5)) = _
    rw [if_pos h, he]
  have hdown : deltaY ≤ 0 → fl64 (s.bottomRotation - 5) = s.bottomRotation - 5 →
      (step A (Event.wheel target deltaY) s).bottomRotation = s.bottomRotation - 5 := by
    intro h he
    rw [hs]
    show fl64 (s.bottomRotation + (if deltaY > 0 then 5 else -5)) = _
    rw [if_neg (not_lt.mpr h), ← sub_eq_add_neg, he]
  refine ⟨hs, hup, hdown, ?_, ?_, ?_, ?_, ?_, ?_, rfl, rfl, rfl⟩
  · intro n hn hb
    have hb' : |n| ≤ 4503599627370496 := by simpa using hb
    obtain ⟨hb1, hb2⟩ := abs_le.mp hb'
    have e1 : fl64 (s.bottomRotation + 5) = s.bottomRotation + 5 :=
      fl64_of_int _ (n + 5) (by rw [hn]; push_cast; ring) (by rw [abs_le]; constructor <;> omega)
    have e2 : fl64 (s.bottomRotation - 5) = s.bottomRotation - 5 :=
      fl64_of_int _ (n - 5) (by rw [hn]; push_cast; ring) (by rw [abs_le]; constructor <;> omega)
    have e3 : fl64 (s.bottomRotation + 5 + 5) = s.bottomRotation + 5 + 5 :=
      fl64_of_int _ (n + 10) (by rw [hn]; push_cast; ring) (by rw [abs_le]; constructor <;> omega)
    have e4 : fl64 (s.bottomRotation - 5 - 5) = s.bottomRotation - 5 - 5 :=
      fl64_of_int _ (n - 10) (by rw [hn]; push_cast; ring) (by rw [abs_le]; constructor <;> omega)
    refine ⟨fun h => hup h e1, fun h => hdown h e2, ?_⟩
    intro hcontra
    have hb := congrArg ViewState.bottomRotation hcontra
    rw [hs] at hb
    simp only [handleWheel, preventScroll, fadd] at hb
    by_cases hd : deltaY > 0
    · simp only [if_pos hd] at hb
      rw [e1, e3] at hb
      linarith
    · simp only [if_neg hd, ← sub_eq_add_neg] at hb
      rw [e2, e4] at hb
      linarith
  · rw [step_wheel]
    show fl64 (s.bottomRotation + (if (0 : ℚ) > 0 then 5 else -5)) = _
    rw [if_neg (lt_irrefl 0), ← sub_eq_add_neg]
  · rw [hs]
  · rw [hs]
  · rw [hs]
  · rw [hs]

/-- Instance of C6: a scroll down from `bottomRotation = 10` during a drag gives 15. -/
theorem C6_wheel_event_steps_by_five_witness :
    (step atan2DegCompass (Event.wheel sampleRect 3)
      { initial with bottomRotation := 10, isDragging := true }).bottomRotation = 10 + 5 :=
  (C6_wheel_event_steps_by_five atan2DegCompass sampleRect 3
    { initial with bottomRotation := 10, isDragging := true }).2.1 (by norm_num)
    (fl64_of_int (10 + 5) 15 (by norm_num) (by norm_num))

/-- C6 fails as stated: from the binary64 value `bearingOneTen`, `5.710593137499642`, a
wheel event with `deltaY > 0` gives `10.710593137499643`, and the change is 5 plus
`2 ^ -50`, not 5. -/
theorem C6_counterexample :
    fl64 bearingOneTen = bearingOneTen ∧
    (step atan2DegCompass (Event.wheel sampleRect 1)
      { initial with bottomRotation := bearingOneTen }).bottomRotation =
        188422747120939 / 2 ^ 44 ∧
    (step atan2DegCompass (Event.wheel sampleRect 1)
      { initial with bottomRotation := bearingOneTen }).bottomRotation - bearingOneTen =
        5 + 1 / 2 ^ 50 ∧
    (step atan2DegCompass (Event.wheel sampleRect 1)
      { initial with bottomRotation := bearingOneTen }).bottomRotation ≠ bearingOneTen + 5 := by
  have hv : (step atan2DegCompass (Event.wheel sampleRect 1)
      { initial with bottomRotation := bearingOneTen }).bottomRotation =
        188422747120939 / 2 ^ 44 := by
    rw [step_wheel]
    show fl64 (bearingOneTen + (if (1 : ℚ) > 0 then 5 else -5)) = _
    rw [if_pos one_pos, fl64_bearingOneTen_add_five]
  refine ⟨fl64_bearingOneTen, hv, ?_, ?_⟩
  · rw [hv]; unfold bearingOneTen; norm_num
  · rw [hv]; unfold bearingOneTen; norm_num

/-! ## Drag-move: what is added to `bottomRotation` -/

theorem shortWay_of_near (a b : ℚ) (h1 : -180 < b - a) (h2 : b - a ≤ 180) :
    shortWay a b = b - a := by
  simp [shortWay, not_lt.mpr h2, not_le.mpr h1]

theorem shortWay_cases (a b : ℚ) (ha : IsBearing a) (hb : IsBearing b) :
    b - a = shortWay a b ∨ b - a = shortWay a b - 360 ∨ b - a = shortWay a b + 360 := by
  obtain ⟨ha1, ha2⟩ := ha
  obtain ⟨hb1, hb2⟩ := hb
  unfold shortWay
  by_cases h1 : b - a > 180
  · right; right; simp [h1]
  · by_cases h2 : b - a ≤ -180
    · right; left; simp [h1, h2]
    · left; simp [h1, h2]

theorem bearing_southWest (A : ℚ → ℚ → ℚ) :
    calculateAngle A (some sampleRect) 0 800 = A 400 (-400) := by
  have h := calculateAngle_sampleRect A 0 800 (by norm_num) (by norm_num)
  norm_num at h
  exact h

theorem bearing_northWest (A : ℚ → ℚ → ℚ) :
    calculateAngle A (some sampleRect) 0 0 = A (-400) (-400) := by
  have h := calculateAngle_sampleRect A 0 0 (by norm_num) (by norm_num)
  norm_num at h
  exact h

theorem bearing_west (A : ℚ → ℚ → ℚ) :
    calculateAngle A (some sampleRect) 0 400 = A 0 (-400) := by
  have h := calculateAngle_sampleRect A 0 400 (by norm_num) (by norm_num)
  norm_num at h
  exact h

theorem bearing_southEast (A : ℚ → ℚ → ℚ) :
    calculateAngle A (some sampleRect) 800 800 = A 400 400 := by
  have h := calculateAngle_sampleRect A 800 800 (by norm_num) (by norm_num)
  norm_num at h
  exact h

theorem bearing_east (A : ℚ → ℚ → ℚ) :
    calculateAngle A (some sampleRect) 800 400 = A 0 400 := by
  have h := calculateAngle_sampleRect A 800 400 (by norm_num) (by norm_num)
  norm_num at h
  exact h

theorem compass_southWest : atan2DegCompass 400 (-400) = 135 := by
  simp [atan2DegCompass]; norm_num

theorem compass_northWest : atan2DegCompass (-400) (-400) = -135 := by
  simp [atan2DegCompass]

theorem compass_west : atan2DegCompass 0 (-400) = 180 := by
  simp [atan2DegCompass]

theorem compass_southEast : atan2DegCompass 400 400 = 45 := by
  simp [atan2DegCompass]

theorem compass_east : atan2DegCompass 0 400 = 0 := by
  simp [atan2DegCompass]

theorem start_southEast_lastAngle (s : ViewState) :
    (handleDragStart atan2DegCompass (some sampleRect) 800 800 s).lastAngle = 45 := by
  show calculateAngle atan2DegCompass (some sampleRect) 800 800 = 45
  rw [bearing_southEast, compass_southEast]

theorem start_southWest_lastAngle (s : ViewState) :
    (handleDragStart atan2DegCompass (some sampleRect) 0 800 s).lastAngle = 135 := by
  show calculateAngle atan2DegCompass (some sampleRect) 0 800 = 135
  rw [bearing_southWest, compass_southWest]

/-- C1, as the code has it: while `isDragging` is true, a drag-move with new bearing `b`
after last bearing `a` adds the plain difference `b - a` to `bottomRotation`, each of the
two operations rounded to binary64, stores `b` as the last bearing and keeps the other
fields. When neither operation rounds, the new value is `bottomRotation + (b - a)` on the
nose: that is the short-way change added when `-180 < b - a ≤ 180`, and for two bearings
of `(-180, 180]` it is the short-way change or that change minus 360 or plus 360. -/
theorem C1_drag_move_adds_plain_difference (A : ℚ → ℚ → ℚ) (r : Option DOMRect) (x y : ℚ)
    (s : ViewState) (h : s.isDragging = true) :
    (handleDragMove A r x y s).bottomRotation =
      fl64 (s.bottomRotation + fl64 (calculateAngle A r x y - s.lastAngle)) ∧
    (handleDragMove A r x y s).lastAngle = calculateAngle A r x y ∧
    (handleDragMove A r x y s).rotation = s.rotation ∧
    (handleDragMove A r x y s).isFlipped = s.isFlipped ∧
    (handleDragMove A r x y s).isDragging = true ∧
    (fl64 (calculateAngle A r x y - s.lastAngle) = calculateAngle A r x y - s.lastAngle →
      fl64 (s.bottomRotation + (calculateAngle A r x y - s.lastAngle)) =
        s.bottomRotation + (calculateAngle A r x y - s.lastAngle) →
      (handleDragMove A r x y s).bottomRotation =
        s.bottomRotation + (calculateAngle A r x y - s.lastAngle) ∧
      (-180 < calculateAngle A r x y - s.lastAngle →
        calculateAngle A r x y - s.lastAngle ≤ 180 →
        (handleDragMove A r x y s).bottomRotation =
          s.bottomRotation + shortWay s.lastAngle (calculateAngle A r x y)) ∧
      (IsBearing s.lastAngle → IsBearing (calculateAngle A r x y) →
        (handleDragMove A r x y s).bottomRotation =
            s.bottomRotation + shortWay s.lastAngle (calculateAngle A r x y) ∨
        (handleDragMove A r x y s).bottomRotation =
            s.bottomRotation + shortWay s.lastAngle (calculateAngle A r x y) - 360 ∨
        (handleDragMove A r x y s).bottomRotation =
            s.bottomRotation + shortWay s.lastAngle (calculateAngle A r x y) + 360)) := by
  rw [handleDragMove_active A r x y s h]
  refine ⟨rfl, rfl, rfl, rfl, h, ?_⟩
  intro e1 e2
  have hv : fl64 (s.bottomRotation + fl64 (calculateAngle A r x y - s.lastAngle)) =
      s.bottomRotation + (calculateAngle A r x y - s.lastAngle) := by rw [e1, e2]
  refine ⟨hv, ?_, ?_⟩
  · intro h1 h2
    show fl64 (s.bottomRotation + fl64 (calculateAngle A r x y - s.lastAngle)) = _
    rw [hv, shortWay_of_near _ _ h1 h2]
  · intro ha hb
    show fl64 (s.bottomRotation + fl64 (calculateAngle A r x y - s.lastAngle)) = _ ∨
      fl64 (s.bottomRotation + fl64 (calculateAngle A r x y - s.lastAngle)) = _ ∨
      fl64 (s.bottomRotation + fl64 (calculateAngle A r x y - s.lastAngle)) = _
    rw [hv]
    rcases shortWay_cases _ _ ha hb with e | e | e
    · left; linarith
    · right; left; linarith
    · right; right; linarith

/-- Instance of C1: a drag from the south-east diagonal to the east axis, bearings 45 and
0, away from the seam and without rounding, takes 45 off `bottomRotation`. -/
theorem C1_drag_move_adds_plain_difference_witness :
    (handleDragStart atan2DegCompass (some sampleRect) 800 800 initial).isDragging = true ∧
    (handleDragMove atan2DegCompass (some sampleRect) 800 400
      (handleDragStart atan2DegCompass (some sampleRect) 800 800 initial)).bottomRotation =
      (handleDragStart atan2DegCompass (some sampleRect) 800 800 initial).bottomRotation +
        (calculateAngle atan2DegCompass (some sampleRect) 800 400 -
          (handleDragStart atan2DegCompass (some sampleRect) 800 800 initial).lastAngle) :=
  ⟨rfl, ((C1_drag_move_adds_plain_difference atan2DegCompass (some sampleRect) 800 400
    (handleDragStart atan2DegCompass (some sampleRect) 800 800 initial) rfl).2.2.2.2.2
      (by
        rw [start_southEast_lastAngle, bearing_east, compass_east]
        exact fl64_of_int (0 - 45) (-45) (by norm_num) (by norm_num))
      (by
        rw [start_southEast_lastAngle, bearing_east, compass_east]
        exact fl64_of_int (0 + (0 - 45)) (-45) (by norm_num) (by norm_num))).1⟩

/-- C1 fails as stated. With the wheel at `sampleRect`, a drag that starts at the pointer
`(0, 800)`, bearing 135, and moves to `(0, 0)`, bearing -135, has the short-way change 90
through the seam, and the handler takes 270 off `bottomRotation`. In the scenario of the
specification, last bearing 170 and new bearing -170, the short-way change is 20 and the
handler takes 340 off. -/
theorem C1_counterexample :
    ((handleDragStart atan2DegCompass (some sampleRect) 0 800 initial).isDragging = true ∧
      (handleDragStart atan2DegCompass (some sampleRect) 0 800 initial).lastAngle = 135 ∧
      calculateAngle atan2DegCompass (some sampleRect) 0 0 = -135 ∧
      IsBearing 135 ∧ IsBearing (-135) ∧
      shortWay 135 (-135) = 90 ∧
      (handleDragMove atan2DegCompass (some sampleRect) 0 0
        (handleDragStart atan2DegCompass (some sampleRect) 0 800 initial)).bottomRotation
          = 0 - 270 ∧
      (handleDragMove atan2DegCompass (some sampleRect) 0 0
        (handleDragStart atan2DegCompass (some sampleRect) 0 800 initial)).bottomRotation
          ≠ 0 + shortWay 135 (-135)) ∧
    (IsBearing 170 ∧ IsBearing (-170) ∧ shortWay 170 (-170) = 20 ∧
      (handleDragMove (constBearing (-170)) (some sampleRect) 0 0
        { initial with isDragging := true, lastAngle := 170 }).bottomRotation = 0 - 340 ∧
      (handleDragMove (constBearing (-170)) (some sampleRect) 0 0
        { initial with isDragging := true, lastAngle := 170 }).bottomRotation ≠ 0 + 20) := by
  have hstart : (handleDragStart atan2DegCompass (some sampleRect) 0 800 initial).lastAngle
      = 135 := by
    show calculateAngle atan2DegCompass (some sampleRect) 0 800 = 135
    rw [bearing_southWest, compass_southWest]
  have hcur : calculateAngle atan2DegCompass (some sampleRect) 0 0 = -135 := by
    rw [bearing_northWest, compass_northWest]
  have hsw : shortWay 135 (-135) = 90 := by
    simp [shortWay]; norm_num
  have hsw2 : shortWay 170 (-170) = 20 := by
    simp [shortWay]; norm_num
  have hmove : (handleDragMove atan2DegCompass (some sampleRect) 0 0
      (handleDragStart atan2DegCompass (some sampleRect) 0 800 initial)).bottomRotation
        = 0 - 270 := by
    rw [handleDragMove_active _ _ _ _ _ rfl]
    show fl64 ((handleDragStart atan2DegCompass (some sampleRect) 0 800 initial).bottomRotation +
      fl64 (calculateAngle atan2DegCompass (some sampleRect) 0 0 -
        (handleDragStart atan2DegCompass (some sampleRect) 0 800 initial).lastAngle)) = 0 - 270
    rw [hcur, hstart]
    show fl64 ((0 : ℚ) + fl64 (-135 - 135)) = 0 - 270
    rw [fl64_of_int (-135 - 135) (-270) (by norm_num) (by norm_num),
      fl64_of_int (0 + (-135 - 135)) (-270) (by norm_num) (by norm_num)]
    norm_num
  have hmove2 : (handleDragMove (constBearing (-170)) (some sampleRect) 0 0
      { initial with isDragging := true, lastAngle := 170 }).bottomRotation = 0 - 340 := by
    rw [handleDragMove_active _ _ _ _ _ rfl]
    show fl64 ((0 : ℚ) + fl64 (-170 - 170)) = 0 - 340
    rw [fl64_of_int (-170 - 170) (-340) (by norm_num) (by norm_num),
      fl64_of_int (0 + (-170 - 170)) (-340) (by norm_num) (by norm_num)]
    norm_num
  refine ⟨⟨rfl, hstart, hcur, ?_, ?_, hsw, hmove, ?_⟩, ?_, ?_, hsw2, hmove2, ?_⟩
  · unfold IsBearing; norm_num
  · unfold IsBearing; norm_num
  · rw [hmove, hsw]; norm_num
  · unfold IsBearing; norm_num
  · unfold IsBearing; norm_num
  · rw [hmove2]; norm_num

/-! ## The slider -/

/-- C7: direct input through the slider always leaves `bottomRotation` in `[-360, 360]`.
For every whole number `v` put into the range input, the resulting `bottomRotation` is `v`
clamped to `[-360, 360]`, so an input of -400 gives -360; the clamp is that of the input
element, whose value the change handler stores as it stands, and no other field
changes. -/
theorem C7_slider_input_is_clamped (A : ℚ → ℚ → ℚ) (v : ℤ) (s : ViewState) :
    (sliderInput v s).bottomRotation = clampTo (-360) 360 (v : ℚ) ∧
    -360 ≤ (sliderInput v s).bottomRotation ∧
    (sliderInput v s).bottomRotation ≤ 360 ∧
    (sliderInput (-400) s).bottomRotation = -360 ∧
    (sliderInput v s).rotation = s.rotation ∧
    (sliderInput v s).isFlipped = s.isFlipped ∧
    (sliderInput v s).isDragging = s.isDragging ∧
    (sliderInput v s).lastAngle = s.lastAngle ∧
    sliderInput v s = step A (Event.slider (rangeInputValue v : ℤ)) s ∧
    (∀ value : ℚ, (step A (Event.slider value) s).bottomRotation = value) := by
  have hval : (sliderInput v s).bottomRotation = ((rangeInputValue v : ℤ) : ℚ) := rfl
  have hclamp : ((rangeInputValue v : ℤ) : ℚ) = clampTo (-360) 360 (v : ℚ) := by
    unfold rangeInputValue rangeMin rangeMax clampTo
    by_cases h1 : v < -360
    · have h1q : (v : ℚ) < -360 := by exact_mod_cast h1
      rw [if_pos h1, min_eq_right (by linarith), max_eq_left (by linarith)]
      norm_num
    · rw [if_neg h1]
      have h1q : (-360 : ℚ) ≤ v := by exact_mod_cast not_lt.mp h1
      by_cases h2 : 360 < v
      · have h2q : (360 : ℚ) < v := by exact_mod_cast h2
        rw [if_pos h2, min_eq_left (by linarith), max_eq_right (by norm_num)]
        norm_num
      · have h2q : (v : ℚ) ≤ 360 := by exact_mod_cast not_lt.mp h2
        rw [if_neg h2, min_eq_right h2q, max_eq_right h1q]
  have hlo : (-360 : ℚ) ≤ clampTo (-360) 360 (v : ℚ) := le_max_left _ _
  have hhi : clampTo (-360) 360 (v : ℚ) ≤ 360 := max_le (by norm_num) (min_le_left _ _)
  refine ⟨by rw [hval, hclamp], by rw [hval, hclamp]; exact hlo, by rw [hval, hclamp]; exact hhi,
    ?_, rfl, rfl, rfl, rfl, rfl, fun _ => rfl⟩
  show (((rangeInputValue (-400) : ℤ)) : ℚ) = -360
  have h400 : rangeInputValue (-400) = -360 := by decide
  rw [h400]; norm_num

/-! ## One drag gesture -/

theorem calculateAngle_isBearing (A : ℚ → ℚ → ℚ) (hA : ∀ dy dx, IsBearing (A dy dx))
    (r : Option DOMRect) (x y : ℚ) : IsBearing (calculateAngle A r x y) := by
  cases r with
  | none => unfold calculateAngle IsBearing; norm_num
  | some rect => exact hA _ _

theorem atan2DegCompass_isBearing (dy dx : ℚ) : IsBearing (atan2DegCompass dy dx) := by
  unfold atan2DegCompass IsBearing
  split_ifs <;> norm_num

theorem step_move_active (A : ℚ → ℚ → ℚ) (p : PointerSample) (t : ViewState)
    (ht : t.isDragging = true) :
    step A (moveEvent p) t =
      { t with bottomRotation := fl64 (t.bottomRotation + fl64 (bearingOf A p - t.lastAngle)),
               lastAngle := bearingOf A p } :=
  handleDragMove_active A _ _ _ t ht

theorem exactMove_keeps_offset (A : ℚ → ℚ → ℚ) (p : PointerSample) (t : ViewState)
    (hex : ExactMove A p t) :
    (step A (moveEvent p) t).bottomRotation - (step A (moveEvent p) t).lastAngle =
      t.bottomRotation - t.lastAngle := by
  cases hd : t.isDragging with
  | false =>
    have hs : step A (moveEvent p) t = t := handleDragMove_idle A _ _ _ t hd
    rw [hs]
  | true =>
    rw [step_move_active A p t hd]
    show fl64 (t.bottomRotation + fl64 (bearingOf A p - t.lastAngle)) - bearingOf A p = _
    rw [hex.1, hex.2]
    ring

theorem run_exact_moves (A : ℚ → ℚ → ℚ) (moves : List PointerSample) (t : ViewState)
    (ht : t.isDragging = true) (hex : ExactMoves A moves t) :
    (run A (moves.map moveEvent) t).isDragging = true ∧
    (run A (moves.map moveEvent) t).bottomRotation - (run A (moves.map moveEvent) t).lastAngle =
      t.bottomRotation - t.lastAngle ∧
    (run A (moves.map moveEvent) t).lastAngle =
      (moves.map (bearingOf A)).getLastD t.lastAngle := by
  induction moves generalizing t with
  | nil => exact ⟨ht, rfl, rfl⟩
  | cons p ps ih =>
    obtain ⟨hp, hps⟩ := hex
    have hrun : run A ((p :: ps).map moveEvent) t =
        run A (ps.map moveEvent) (step A (moveEvent p) t) := rfl
    have hstep := step_move_active A p t ht
    have hd : (step A (moveEvent p) t).isDragging = true := by rw [hstep]; exact ht
    obtain ⟨h1, h2, h3⟩ := ih (step A (moveEvent p) t) hd hps
    rw [hrun]
    refine ⟨h1, ?_, ?_⟩
    · rw [h2]; exact exactMove_keeps_offset A p t hp
    · rw [h3, hstep]
      exact (List.getLastD_cons _ _ _).symm

/-- C10, as the code has it: a drag-move sets `bottomRotation` to the binary64 sum of
`bottomRotation` and the binary64 difference of the new and the last bearing, and it keeps
`bottomRotation - lastAngle` when neither operation rounds. Over a drag-start and any
finite list of drag-moves none of which rounds, the net change of `bottomRotation` is the
bearing of the last sample minus the bearing of the start; when the bearing function only
returns values of `(-180, 180]`, that net change is strictly between -360 and 360,
however many samples the gesture has. -/
theorem C10_gesture_telescopes (A : ℚ → ℚ → ℚ) (hA : ∀ dy dx, IsBearing (A dy dx))
    (start : PointerSample) (moves : List PointerSample) (s : ViewState)
    (hex : ExactMoves A moves (handleDragStart A start.wheelRef start.clientX start.clientY s)) :
    (∀ (p : PointerSample) (t : ViewState), t.isDragging = true →
      (step A (moveEvent p) t).bottomRotation =
        fl64 (t.bottomRotation + fl64 (bearingOf A p - t.lastAngle)) ∧
      (step A (moveEvent p) t).lastAngle = bearingOf A p) ∧
    (∀ (p : PointerSample) (t : ViewState), ExactMove A p t →
      (step A (moveEvent p) t).bottomRotation - (step A (moveEvent p) t).lastAngle =
        t.bottomRotation - t.lastAngle) ∧
    (run A (gesture start moves) s).bottomRotation - s.bottomRotation =
      lastBearing A start moves - bearingOf A start ∧
    (run A (gesture start moves) s).lastAngle = lastBearing A start moves ∧
    |(run A (gesture start moves) s).bottomRotation - s.bottomRotation| < 360 := by
  have hrun : run A (gesture start moves) s =
      run A (moves.map moveEvent)
        (handleDragStart A start.wheelRef start.clientX start.clientY s) := rfl
  obtain ⟨_, h2, h3⟩ := run_exact_moves A moves
    (handleDragStart A start.wheelRef start.clientX start.clientY s) rfl hex
  have hlast : (run A (gesture start moves) s).lastAngle = lastBearing A start moves := by
    rw [hrun, h3]; rfl
  have hnet : (run A (gesture start moves) s).bottomRotation - s.bottomRotation =
      lastBearing A start moves - bearingOf A start := by
    have h2a : (run A (gesture start moves) s).bottomRotation -
        (run A (gesture start moves) s).lastAngle = s.bottomRotation - bearingOf A start := by
      rw [hrun, h2]; rfl
    rw [hlast] at h2a
    linarith
  have hb0 : IsBearing (bearingOf A start) := calculateAngle_isBearing A hA _ _ _
  have hbl : IsBearing (lastBearing A start moves) := by
    unfold lastBearing
    rcases List.eq_nil_or_concat moves with h | ⟨ps, p, h⟩
    · rw [h]; exact hb0
    · rw [h]
      simp only [List.concat_eq_append, List.map_append, List.map_cons, List.map_nil,
        List.getLastD_concat]
      exact calculateAngle_isBearing A hA _ _ _
  refine ⟨?_, exactMove_keeps_offset A, hnet, hlast, ?_⟩
  · intro p t ht
    rw [step_move_active A p t ht]
    exact ⟨rfl, rfl⟩
  · rw [hnet, abs_lt]
    obtain ⟨a1, a2⟩ := hb0
    obtain ⟨b1, b2⟩ := hbl
    constructor <;> linarith

theorem exactMove_of_ints (A : ℚ → ℚ → ℚ) (p : PointerSample) (t : ViewState) (a b c : ℤ)
    (ht : t.isDragging = true) (hb : bearingOf A p = b) (ha : t.lastAngle = a)
    (hc : t.bottomRotation = c) (h1 : |b - a| ≤ 2 ^ 53) (h2 : |c + (b - a)| ≤ 2 ^ 53) :
    ExactMove A p t ∧
    (step A (moveEvent p) t).isDragging = true ∧
    (step A (moveEvent p) t).lastAngle = b ∧
    (step A (moveEvent p) t).bottomRotation = ((c + (b - a) : ℤ) : ℚ) := by
  have e1 : fl64 (bearingOf A p - t.lastAngle) = bearingOf A p - t.lastAngle :=
    fl64_of_int _ (b - a) (by rw [hb, ha]; push_cast; ring) h1
  have e2 : fl64 (t.bottomRotation + (bearingOf A p - t.lastAngle)) =
      t.bottomRotation + (bearingOf A p - t.lastAngle) :=
    fl64_of_int _ (c + (b - a)) (by rw [hb, ha, hc]; push_cast; ring) h2
  refine ⟨⟨e1, e2⟩, ?_, ?_, ?_⟩
  · rw [step_move_active A p t ht]; exact ht
  · rw [step_move_active A p t ht]; exact hb
  · rw [step_move_active A p t ht]
    show fl64 (t.bottomRotation + fl64 (bearingOf A p - t.lastAngle)) = _
    rw [e1, e2, hb, ha, hc]
    push_cast
    ring

theorem compass_gesture_exact :
    ExactMoves atan2DegCompass [⟨some sampleRect, 0, 400⟩, ⟨some sampleRect, 0, 0⟩]
      (handleDragStart atan2DegCompass (some sampleRect) 0 800 initial) := by
  have hb1 : bearingOf atan2DegCompass ⟨some sampleRect, 0, 400⟩ = ((180 : ℤ) : ℚ) := by
    show calculateAngle atan2DegCompass (some sampleRect) 0 400 = _
    rw [bearing_west, compass_west]; norm_num
  have hb2 : bearingOf atan2DegCompass ⟨some sampleRect, 0, 0⟩ = ((-135 : ℤ) : ℚ) := by
    show calculateAngle atan2DegCompass (some sampleRect) 0 0 = _
    rw [bearing_northWest, compass_northWest]; norm_num
  have ha0 : (handleDragStart atan2DegCompass (some sampleRect) 0 800 initial).lastAngle =
      ((135 : ℤ) : ℚ) := by
    rw [start_southWest_lastAngle]; norm_num
  have hc0 : (handleDragStart atan2DegCompass (some sampleRect) 0 800 initial).bottomRotation =
      ((0 : ℤ) : ℚ) := by
    show (0 : ℚ) = _
    norm_num
  obtain ⟨m1, d1, l1, c1⟩ := exactMove_of_ints atan2DegCompass ⟨some sampleRect, 0, 400⟩
    (handleDragStart atan2DegCompass (some sampleRect) 0 800 initial) 135 180 0 rfl hb1 ha0 hc0
    (by norm_num) (by norm_num)
  obtain ⟨m2, _, _, _⟩ := exactMove_of_ints atan2DegCompass ⟨some sampleRect, 0, 0⟩
    (step atan2DegCompass (moveEvent ⟨some sampleRect, 0, 400⟩)
      (handleDragStart atan2DegCompass (some sampleRect) 0 800 initial))
    180 (-135) (0 + (180 - 135)) d1 hb2 l1 c1 (by norm_num) (by norm_num)
  exact ⟨m1, m2, trivial⟩

/-- Instance of C10: with the wheel at `sampleRect`, a gesture from the pointer `(0, 800)`
through `(0, 400)` to `(0, 0)`, bearings 135, 180 and -135, rounds nowhere and changes
`bottomRotation` by the last bearing minus the first. -/
theorem C10_gesture_telescopes_witness :
    (run atan2DegCompass
      (gesture ⟨some sampleRect, 0, 800⟩ [⟨some sampleRect, 0, 400⟩, ⟨some sampleRect, 0, 0⟩])
      initial).bottomRotation - initial.bottomRotation =
    lastBearing atan2DegCompass ⟨some sampleRect, 0, 800⟩
      [⟨some sampleRect, 0, 400⟩, ⟨some sampleRect, 0, 0⟩] -
      bearingOf atan2DegCompass ⟨some sampleRect, 0, 800⟩ :=
  (C10_gesture_telescopes atan2DegCompass atan2DegCompass_isBearing
    ⟨some sampleRect, 0, 800⟩ [⟨some sampleRect, 0, 400⟩, ⟨some sampleRect, 0, 0⟩]
    initial compass_gesture_exact).2.2.1

/-- C10 fails as stated. From `bottomRotation = bearingOneTen`, the binary64 value
`5.710593137499642`, a gesture that starts at the pointer `(800, 800)`, bearing 45, and
moves to `(800, 400)`, bearing 0, ends at `-39.28940686250036`: the net change is
`-45 + 2 ^ -50` where the last bearing minus the first is -45, and the drag-move does not
keep `bottomRotation - lastAngle`. -/
theorem C10_counterexample :
    fl64 bearingOneTen = bearingOneTen ∧
    bearingOf atan2DegCompass ⟨some sampleRect, 800, 800⟩ = 45 ∧
    bearingOf atan2DegCompass ⟨some sampleRect, 800, 400⟩ = 0 ∧
    IsBearing 45 ∧ IsBearing 0 ∧
    (run atan2DegCompass (gesture ⟨some sampleRect, 800, 800⟩ [⟨some sampleRect, 800, 400⟩])
      { initial with bottomRotation := bearingOneTen }).bottomRotation =
        -691186555099861 / 2 ^ 44 ∧
    (run atan2DegCompass (gesture ⟨some sampleRect, 800, 800⟩ [⟨some sampleRect, 800, 400⟩])
      { initial with bottomRotation := bearingOneTen }).bottomRotation - bearingOneTen ≠
        lastBearing atan2DegCompass ⟨some sampleRect, 800, 800⟩ [⟨some sampleRect, 800, 400⟩] -
          bearingOf atan2DegCompass ⟨some sampleRect, 800, 800⟩ ∧
    (step atan2DegCompass (moveEvent ⟨some sampleRect, 800, 400⟩)
        (handleDragStart atan2DegCompass (some sampleRect) 800 800
          { initial with bottomRotation := bearingOneTen })).bottomRotation -
      (step atan2DegCompass (moveEvent ⟨some sampleRect, 800, 400⟩)
        (handleDragStart atan2DegCompass (some sampleRect) 800 800
          { initial with bottomRotation := bearingOneTen })).lastAngle ≠
      (handleDragStart atan2DegCompass (some sampleRect) 800 800
          { initial with bottomRotation := bearingOneTen }).bottomRotation -
        (handleDragStart atan2DegCompass (some sampleRect) 800 800
          { initial with bottomRotation := bearingOneTen }).lastAngle := by
  have hb0 : bearingOf atan2DegCompass ⟨some sampleRect, 800, 800⟩ = 45 := by
    show calculateAngle atan2DegCompass (some sampleRect) 800 800 = 45
    rw [bearing_southEast, compass_southEast]
  have hb1 : bearingOf atan2DegCompass ⟨some sampleRect, 800, 400⟩ = 0 := by
    show calculateAngle atan2DegCompass (some sampleRect) 800 400 = 0
    rw [bearing_east, compass_east]
  have hl0 := start_southEast_lastAngle { initial with bottomRotation := bearingOneTen }
  have hstep : step atan2DegCompass (moveEvent ⟨some sampleRect, 800, 400⟩)
      (handleDragStart atan2DegCompass (some sampleRect) 800 800
        { initial with bottomRotation := bearingOneTen }) =
      { (handleDragStart atan2DegCompass (some sampleRect) 800 800
          { initial with bottomRotation := bearingOneTen }) with
        bottomRotation := -691186555099861 / 2 ^ 44, lastAngle := 0 } := by
    rw [step_move_active _ _ _ rfl, hb1, hl0]
    have h45 : fl64 (0 - 45) = -45 := by
      rw [fl64_of_int (0 - 45) (-45) (by norm_num) (by norm_num)]; norm_num
    rw [h45]
    show ({ (handleDragStart atan2DegCompass (some sampleRect) 800 800
        { initial with bottomRotation := bearingOneTen }) with
      bottomRotation := fl64 (bearingOneTen + -45), lastAngle := 0 } : ViewState) = _
    rw [fl64_bearingOneTen_sub_fortyFive]
  have hrun : run atan2DegCompass
      (gesture ⟨some sampleRect, 800, 800⟩ [⟨some sampleRect, 800, 400⟩])
      { initial with bottomRotation := bearingOneTen } =
      step atan2DegCompass (moveEvent ⟨some sampleRect, 800, 400⟩)
        (handleDragStart atan2DegCompass (some sampleRect) 800 800
          { initial with bottomRotation := bearingOneTen }) := rfl
  have hlastB : lastBearing atan2DegCompass ⟨some sampleRect, 800, 800⟩
      [⟨some sampleRect, 800, 400⟩] = 0 := by
    show bearingOf atan2DegCompass ⟨some sampleRect, 800, 400⟩ = 0
    exact hb1
  refine ⟨fl64_bearingOneTen, hb0, hb1, ?_, ?_, ?_, ?_, ?_⟩
  · unfold IsBearing; norm_num
  · unfold IsBearing; norm_num
  · rw [hrun, hstep]
  · rw [hrun, hstep, hlastB, hb0]
    show (-691186555099861 / 2 ^ 44 : ℚ) - bearingOneTen ≠ 0 - 45
    unfold bearingOneTen; norm_num
  · rw [hstep, hl0]
    show (-691186555099861 / 2 ^ 44 : ℚ) - 0 ≠ bearingOneTen - 45
    unfold bearingOneTen; norm_num

end WheelViewer

namespace Layout

/-! ## The analytics identifier -/

theorem append_left_cancel (a x y : String) (h : a ++ x = a ++ y) : x = y := by
  have hd := congrArg String.data h
  simp only [String.data_append] at hd
  exact String.ext (List.append_cancel_left hd)

theorem append_right_cancel (x y b : String) (h : x ++ b = y ++ b) : x = y := by
  have hd := congrArg String.data h
  simp only [String.data_append] at hd
  exact String.ext (List.append_cancel_right hd)

theorem templateString_eq_empty (o : Option String) : templateString o = "" ↔ o = some "" := by
  cases o with
  | none =>
    constructor
    · intro h; exact absurd h (by decide)
    · intro h; cases h
  | some s =>
    constructor
    · intro h; exact congrArg some h
    · intro h; exact Option.some.inj h

theorem srcHead_eq : srcHead = "https://www.googletagmanager.com/gtag/js?id=" := rfl

theorem bodyHead_eq :
    bodyHead =
      "\n        window.dataLayer = window.dataLayer || [];\n          function gtag()\x7bdataLayer.push(arguments);\x7d\n          gtag('js', new Date());\n          gtag('config', '" :=
  rfl

theorem bodyTail_eq : bodyTail = "');\n        " := rfl

/-- C9, as the code has it: when `GA_TRACKING_ID` is absent from the environment, both
templates receive the text `undefined`: the script address is the one ending in
`id=undefined` and the configuration call is `gtag('config', 'undefined');`. When the
variable is set, both templates receive its value as it stands. The address and the
call carry the empty identifier exactly when the variable is set to the empty string. -/
theorem C9_absent_id_prints_undefined (env : String → Option String) :
    (env "GA_TRACKING_ID" = none →
      (RootLayout env).src = "https://www.googletagmanager.com/gtag/js?id=undefined" ∧
      (RootLayout env).body =
        "\n        window.dataLayer = window.dataLayer || [];\n          function gtag()\x7bdataLayer.push(arguments);\x7d\n          gtag('js', new Date());\n          gtag('config', 'undefined');\n        ") ∧
    (∀ id : String, env "GA_TRACKING_ID" = some id →
      (RootLayout env).src = "https://www.googletagmanager.com/gtag/js?id=" ++ id ∧
      (RootLayout env).body =
        "\n        window.dataLayer = window.dataLayer || [];\n          function gtag()\x7bdataLayer.push(arguments);\x7d\n          gtag('js', new Date());\n          gtag('config', '" ++ id ++ "');\n        ") ∧
    ((RootLayout env).src = "https://www.googletagmanager.com/gtag/js?id=" ↔
      env "GA_TRACKING_ID" = some "") ∧
    ((RootLayout env).body =
        "\n        window.dataLayer = window.dataLayer || [];\n          function gtag()\x7bdataLayer.push(arguments);\x7d\n          gtag('js', new Date());\n          gtag('config', '');\n        " ↔
      env "GA_TRACKING_ID" = some "") := by
  have hsrc : (RootLayout env).src =
      "https://www.googletagmanager.com/gtag/js?id=" ++ templateString (env "GA_TRACKING_ID") :=
    rfl
  have hbody : (RootLayout env).body =
      "\n        window.dataLayer = window.dataLayer || [];\n          function gtag()\x7bdataLayer.push(arguments);\x7d\n          gtag('js', new Date());\n          gtag('config', '" ++
        templateString (env "GA_TRACKING_ID") ++ "');\n        " := by
    show bodyHead ++ templateString (env "GA_TRACKING_ID") ++ bodyTail = _
    rw [bodyHead_eq, bodyTail_eq]
  refine ⟨?_, ?_, ?_, ?_⟩
  · intro h
    rw [hsrc, hbody, h]
    exact ⟨rfl, rfl⟩
  · intro id h
    rw [hsrc, hbody, h]
    exact ⟨rfl, rfl⟩
  · rw [hsrc, ← templateString_eq_empty]
    constructor
    · intro h
      exact append_left_cancel "https://www.googletagmanager.com/gtag/js?id=" _ ""
        (h.trans rfl)
    · intro h; rw [h]; rfl
  · rw [hbody, ← templateString_eq_empty]
    constructor
    · intro h
      have h1 : bodyHead ++ (templateString (env "GA_TRACKING_ID") ++ bodyTail) =
          bodyHead ++ ("" ++ bodyTail) := by
        rw [← String.append_assoc]
        exact h.trans rfl
      exact append_right_cancel _ _ bodyTail (append_left_cancel bodyHead _ _ h1)
    · intro h; rw [h]; rfl

/-- Instance of C9 for the environment that defines no variable. -/
theorem C9_absent_id_prints_undefined_witness :
    (RootLayout (fun _ => none)).src =
      "https://www.googletagmanager.com/gtag/js?id=undefined" :=
  ((C9_absent_id_prints_undefined (fun _ => none)).1 rfl).1

/-- C9 fails as stated: with no variable defined, the script address is the one ending in
`id=undefined`, not the address with an empty identifier, and the body makes the
configuration call with `undefined`, not with the empty identifier. -/
theorem C9_counterexample :
    (RootLayout (fun _ => none)).src ≠ "https://www.googletagmanager.com/gtag/js?id=" ++ "" ∧
    (RootLayout (fun _ => none)).src = "https://www.googletagmanager.com/gtag/js?id=undefined" ∧
    (RootLayout (fun _ => none)).body =
      "\n        window.dataLayer = window.dataLayer || [];\n          function gtag()\x7bdataLayer.push(arguments);\x7d\n          gtag('js', new Date());\n          gtag('config', 'undefined');\n        " ∧
    (RootLayout (fun _ => none)).body ≠
      "\n        window.dataLayer = window.dataLayer || [];\n          function gtag()\x7bdataLayer.push(arguments);\x7d\n          gtag('js', new Date());\n          gtag('config', '');\n        " := by
  refine ⟨by decide, rfl, rfl, ?_⟩
  intro hbody
  have h1 : bodyHead ++ ("undefined" ++ bodyTail) = bodyHead ++ ("" ++ bodyTail) := by
    rw [← String.append_assoc]
    exact hbody.trans rfl
  exact absurd (append_right_cancel _ _ bodyTail (append_left_cancel bodyHead _ _ h1))
    (by decide)

end Layout
